import Mathlib

/-!
Chat backend (`src/server.js`): history store, `/chat` and `/logout`.

A shallow embedding of the two route handlers of `src/server.js`.

* The MongoDB collection `chat_history` is a list of documents in natural
  (insertion) order.  The schema declares no unique index on `userId`, so the
  list may hold several documents with the same `userId`; `Chat.findOne` and
  `Chat.deleteOne` act on the first match, `chat.save()` writes back the
  document that was loaded (identified here by its position) or inserts a new
  one at the end.
* Everything outside the process is an explicit environment: whether
  `Chat.findOne` throws, what the generation client answers to the call it
  receives, and whether each of the two `chat.save()` call sites throws.
* A request body carries the fields `userId` and `message`, each absent or a
  string (the interface of the routes: `{ userId: string, message: string }`).
-/

namespace ChatBackend

/-! ## Data model -/

/-- An element of `messages` in the schema: `{ role: String, content: String }`. -/
structure Turn where
  role : String
  content : String
deriving DecidableEq, Repr

/-- A document of the collection: `{ userId: String, messages: [...] }`. -/
structure ChatDoc where
  userId : String
  messages : List Turn
deriving DecidableEq, Repr

/-- The collection `chat_history`, in natural order. -/
abbrev Store := List ChatDoc

/-- An element of `parts` in the generation client's message format: `{ text }`. -/
structure Part where
  text : String
deriving DecidableEq, Repr

/-- A message in the generation client's format: `{ role, parts: [{ text }] }`. -/
structure GeminiMsg where
  role : String
  parts : List Part
deriving DecidableEq, Repr

/-- What the generation client receives: `startChat({ history })` then
`sendMessage(input)`. -/
structure GenCall where
  history : List GeminiMsg
  input : String
deriving DecidableEq, Repr

/-- The JSON body of a response. -/
inductive Body where
  | reply (reply : String)
  | error (error : String)
  | message (message : String)
deriving DecidableEq, Repr

/-- An HTTP response: status code and JSON body (`res.json` alone is status 200). -/
structure Response where
  status : Nat
  body : Body
deriving DecidableEq, Repr

/-- The body of `POST /chat`: `const { userId, message } = req.body`. -/
structure ChatReq where
  userId : Option String
  message : Option String
deriving DecidableEq, Repr

/-- The body of `POST /logout`: `const { userId } = req.body`. -/
structure LogoutReq where
  userId : Option String
deriving DecidableEq, Repr

/-- The environment of one `/chat` request.  An error is the `message` of the
thrown exception. -/
structure ChatEnv where
  /-- `Chat.findOne` (line 41) throws with this message. -/
  findOneErr : Option String
  /-- The outcome of `getGenerativeModel` / `startChat` / `sendMessage` /
  `response.text()` (lines 48-65) on the call made: the text, or a throw. -/
  generate : GenCall → Except String String
  /-- The `chat.save()` of the success path (line 73) throws with this message. -/
  save73Err : Option String
  /-- The `chat.save()` of the catch block (line 88) throws with this message. -/
  save88Err : Option String

/-- The environment of one `/logout` request. -/
structure LogoutEnv where
  /-- `Chat.deleteOne` (line 107) throws with this message. -/
  deleteOneErr : Option String

/-- What one `/chat` request produces: the response sent, the collection
afterwards, and the calls made to the generation client. -/
structure ChatResult where
  response : Response
  store : Store
  genCalls : List GenCall
deriving DecidableEq, Repr

/-- What one `/logout` request produces. -/
structure LogoutResult where
  response : Response
  store : Store
deriving DecidableEq, Repr

/-! ## The store operations used by the handlers -/

/-- `Chat.findOne({ userId })`: the first document with that `userId`, together
with its position (its identity for a later `save`). -/
def findOne : Store → String → Option (Nat × ChatDoc)
  | [], _ => none
  | d :: ds, u =>
    if d.userId = u then some (0, d)
    else (findOne ds u).map (fun p => (p.1 + 1, p.2))

/-- `chat.save()`: a loaded document is written back in place, a document made
by `new Chat(...)` is inserted. -/
def save (s : Store) (target : Option Nat) (doc : ChatDoc) : Store :=
  match target with
  | some i => s.set i doc
  | none => s ++ [doc]

/-- `Chat.deleteOne({ userId })`: removes the first document with that `userId`,
if any. -/
def deleteOne : Store → String → Store
  | [], _ => []
  | d :: ds, u => if d.userId = u then ds else d :: deleteOne ds u

/-- The conversation stored for a user: what `Chat.findOne` returns. -/
def conversation (s : Store) (u : String) : Option ChatDoc :=
  (findOne s u).map Prod.snd

/-- The stored turn sequence of a user (empty when there is no conversation). -/
def turnsOf (s : Store) (u : String) : List Turn :=
  match findOne s u with
  | some p => p.2.messages
  | none => []

/-! ## `POST /chat` -/

/-- The test `!x` on a body field: absent or the empty string. -/
def falsy (x : Option String) : Bool :=
  match x with
  | none => true
  | some v => v == ""

/-- The mapping of line 51-54: `role === "assistant" ? "model" : "user"`. -/
def toGemini (msg : Turn) : GeminiMsg :=
  { role := if msg.role = "assistant" then "model" else "user",
    parts := [{ text := msg.content }] }

/-- The template literal of line 80. -/
def mockResponse (message : String) : String :=
  "I'm sorry, I'm currently experiencing connection issues. Your message was: \""
    ++ message ++ "\". Please try again later."

/-- The catch block of the inner `try` (lines 76-91), entered with the
in-memory `chat.messages` as they are at the throw. -/
def chatCatch (env : ChatEnv) (s : Store) (target : Option Nat) (userId message : String)
    (messages : List Turn) (calls : List GenCall) : ChatResult :=
  let fallbackMessage : Turn := { role := "assistant", content := mockResponse message }
  let messages := messages ++ [fallbackMessage]
  match env.save88Err with
  | none =>
    { response := { status := 200, body := .reply fallbackMessage.content },
      store := save s target { userId := userId, messages := messages },
      genCalls := calls }
  | some e =>
    { response := { status := 500, body := .error e }, store := s, genCalls := calls }

/-- The handler of `POST /chat` (lines 32-96). -/
def chat (env : ChatEnv) (s : Store) (req : ChatReq) : ChatResult :=
  if falsy req.userId || falsy req.message then
    { response := { status := 400, body := .error "Missing userId or message" },
      store := s, genCalls := [] }
  else
    let userId := req.userId.getD ""
    let message := req.message.getD ""
    match env.findOneErr with
    | some e =>
      { response := { status := 500, body := .error e }, store := s, genCalls := [] }
    | none =>
      let found := findOne s userId
      let target := found.map Prod.fst
      let messages : List Turn :=
        (match found with
          | some p => p.2.messages
          | none => []) ++ [{ role := "user", content := message }]
      let geminiMessages := messages.map toGemini
      let call : GenCall := { history := geminiMessages.dropLast, input := message }
      match env.generate call with
      | .ok botResponse =>
        let botMessage : Turn := { role := "assistant", content := botResponse }
        let messages := messages ++ [botMessage]
        match env.save73Err with
        | none =>
          { response := { status := 200, body := .reply botMessage.content },
            store := save s target { userId := userId, messages := messages },
            genCalls := [call] }
        | some _ => chatCatch env s target userId message messages [call]
      | .error _ => chatCatch env s target userId message messages [call]

/-! ## `POST /logout` -/

/-- The handler of `POST /logout` (lines 99-114). -/
def logout (env : LogoutEnv) (s : Store) (req : LogoutReq) : LogoutResult :=
  if falsy req.userId then
    { response := { status := 400, body := .error "User ID required" }, store := s }
  else
    match env.deleteOneErr with
    | some _ =>
      { response := { status := 500, body := .error "Internal Server Error" }, store := s }
    | none =>
      { response := { status := 200, body := .message "Chat history deleted, user logged out." },
        store := deleteOne s (req.userId.getD "") }

/-! ## Sequences of requests -/

/-- All store operations of a `/chat` request succeed. -/
def ChatEnv.storeOk (env : ChatEnv) : Prop :=
  env.findOneErr = none ∧ env.save73Err = none ∧ env.save88Err = none

/-- Sequential `/chat` requests of one user: each request comes with its own
environment and its message; the collection is threaded through. -/
def runChats (s : Store) (u : String) : List (ChatEnv × String) → Store
  | [] => s
  | p :: rest => runChats (chat p.1 s { userId := some u, message := some p.2 }).store u rest

/-- The number of documents the collection holds for a user. -/
def docCount (s : Store) (u : String) : Nat :=
  (s.filter (fun d => d.userId = u)).length

/-- An environment in which generation answers `text` and nothing fails. -/
def envOk (text : String) : ChatEnv :=
  { findOneErr := none, generate := fun _ => .ok text, save73Err := none, save88Err := none }

/-- An environment in which generation fails and no store operation does. -/
def envGenFails : ChatEnv :=
  { findOneErr := none, generate := fun _ => .error "fetch failed",
    save73Err := none, save88Err := none }

/-- An environment in which generation answers `text`, the `save` of line 73
throws and the `save` of line 88 succeeds. -/
def envSaveRetry (text : String) : ChatEnv :=
  { findOneErr := none, generate := fun _ => .ok text,
    save73Err := some "connection reset", save88Err := none }

/-- The turns `ts` are, for each message of `ms` in order, a user turn with that
message followed by one assistant turn. -/
def Alternates : List String → List Turn → Prop
  | [], ts => ts = []
  | m :: ms, ts =>
    ∃ r rest, ts = { role := "user", content := m } :: { role := "assistant", content := r } :: rest
      ∧ Alternates ms rest

/-! ## Lemmas about the store operations -/

theorem findOne_userId {s : Store} {u : String} {p : Nat × ChatDoc}
    (h : findOne s u = some p) : p.2.userId = u := by
  induction s generalizing p with
  | nil => simp [findOne] at h
  | cons d ds ih =>
    by_cases hd : d.userId = u
    · simp [findOne, hd] at h
      subst h
      exact hd
    · simp only [findOne, hd, if_false, Option.map_eq_some'] at h
      obtain ⟨q, hq, rfl⟩ := h
      exact ih (p := q) hq

theorem findOne_set_same {s : Store} {u : String} {p : Nat × ChatDoc}
    (h : findOne s u = some p) (m : List Turn) :
    findOne (s.set p.1 { userId := u, messages := m }) u
      = some (p.1, { userId := u, messages := m }) := by
  induction s generalizing p with
  | nil => simp [findOne] at h
  | cons d ds ih =>
    by_cases hd : d.userId = u
    · simp [findOne, hd] at h
      subst h
      simp [findOne]
    · simp only [findOne, hd, if_false, Option.map_eq_some'] at h
      obtain ⟨q, hq, rfl⟩ := h
      have := ih hq
      simp [findOne, hd, this]

theorem findOne_set_other {s : Store} {u v : String} {p : Nat × ChatDoc}
    (h : findOne s u = some p) (m : List Turn) (hv : v ≠ u) :
    findOne (s.set p.1 { userId := u, messages := m }) v = findOne s v := by
  induction s generalizing p with
  | nil => simp [findOne] at h
  | cons d ds ih =>
    by_cases hd : d.userId = u
    · simp [findOne, hd] at h
      subst h
      have h1 : ¬ u = v := fun e => hv e.symm
      have h2 : ¬ d.userId = v := fun e => hv (e.symm.trans hd)
      simp [findOne, h1, h2]
    · simp only [findOne, hd, if_false, Option.map_eq_some'] at h
      obtain ⟨q, hq, rfl⟩ := h
      have := ih hq
      by_cases hdv : d.userId = v
      · simp [findOne, hdv]
      · simp [findOne, hdv, this]

theorem findOne_append_same {s : Store} {u : String}
    (h : findOne s u = none) (m : List Turn) :
    findOne (s ++ [{ userId := u, messages := m }]) u
      = some (s.length, { userId := u, messages := m }) := by
  induction s with
  | nil => simp [findOne]
  | cons d ds ih =>
    by_cases hd : d.userId = u
    · simp [findOne, hd] at h
    · simp only [findOne, hd, if_false, Option.map_eq_none'] at h
      simp [findOne, hd, ih h]

theorem findOne_append_other {s : Store} {u v : String} (m : List Turn) (hv : v ≠ u) :
    findOne (s ++ [{ userId := u, messages := m }]) v = findOne s v := by
  induction s with
  | nil =>
    have h1 : ¬ u = v := fun e => hv e.symm
    simp [findOne, h1]
  | cons d ds ih =>
    by_cases hdv : d.userId = v
    · simp [findOne, hdv]
    · simp [findOne, hdv, ih]

/-- Saving the document loaded (or created) for `u` makes it the conversation
of `u`. -/
theorem conversation_save_same (s : Store) (u : String) (m : List Turn) :
    conversation (save s ((findOne s u).map Prod.fst) { userId := u, messages := m }) u
      = some { userId := u, messages := m } := by
  cases h : findOne s u with
  | none => simp [conversation, save, findOne_append_same h]
  | some p => simp [conversation, save, findOne_set_same h]

/-- Saving the document of `u` leaves what `findOne` returns for another user. -/
theorem findOne_save_other (s : Store) (u v : String) (m : List Turn) (hv : v ≠ u) :
    findOne (save s ((findOne s u).map Prod.fst) { userId := u, messages := m }) v
      = findOne s v := by
  cases h : findOne s u with
  | none => simp [save, findOne_append_other m hv]
  | some p => simp [save, findOne_set_other h m hv]

theorem turnsOf_eq (s : Store) (u : String) :
    turnsOf s u = ((conversation s u).map ChatDoc.messages).getD [] := by
  unfold turnsOf conversation
  cases findOne s u <;> rfl

theorem turnsOf_save_same (s : Store) (u : String) (m : List Turn) :
    turnsOf (save s ((findOne s u).map Prod.fst) { userId := u, messages := m }) u = m := by
  simp [turnsOf_eq, conversation_save_same]

theorem findOne_deleteOne_other (s : Store) (u v : String) (hv : v ≠ u) :
    (findOne (deleteOne s u) v).map Prod.snd = (findOne s v).map Prod.snd := by
  induction s with
  | nil => simp [deleteOne]
  | cons d ds ih =>
    by_cases hd : d.userId = u
    · have h2 : ¬ d.userId = v := fun e => hv (e.symm.trans hd)
      simp [deleteOne, hd, findOne, h2]
      rw [← hd] 
      simp [h2, Option.map_map, Function.comp_def]
    · by_cases hdv : d.userId = v
      · subst hdv
        simp [deleteOne, hd, findOne]
      · simp only [deleteOne, hd, findOne, hdv, if_false, Option.map_map, Function.comp_def]
        simpa [Option.map_map, Function.comp_def] using ih

theorem findOne_eq_none_iff (s : Store) (u : String) :
    findOne s u = none ↔ docCount s u = 0 := by
  induction s with
  | nil => simp [findOne, docCount]
  | cons d ds ih =>
    by_cases hd : d.userId = u
    · simp [findOne, docCount, hd]
    · simp only [docCount] at ih
      simp [findOne, docCount, hd, ih]

theorem docCount_deleteOne (s : Store) (u : String) :
    docCount (deleteOne s u) u = docCount s u - 1 := by
  induction s with
  | nil => simp [deleteOne, docCount]
  | cons d ds ih =>
    by_cases hd : d.userId = u
    · simp [deleteOne, docCount, hd]
    · simp only [docCount] at ih
      simp [deleteOne, docCount, hd, ih]

theorem deleteOne_of_none {s : Store} {u : String} (h : findOne s u = none) :
    deleteOne s u = s := by
  induction s with
  | nil => simp [deleteOne]
  | cons d ds ih =>
    by_cases hd : d.userId = u
    · simp [findOne, hd] at h
    · simp only [findOne, hd, if_false, Option.map_eq_none'] at h
      simp [deleteOne, hd, ih h]

/-! ## Lemmas about the handlers -/

theorem falsy_eq_true_iff (x : Option String) :
    falsy x = true ↔ x = none ∨ x = some "" := by
  cases x <;> simp [falsy]

/-- The handler on a request that passes validation, with the loaded turns
written as `turnsOf s u`. -/
theorem chat_valid (env : ChatEnv) (s : Store) (u m : String) (hu : u ≠ "") (hm : m ≠ "") :
    chat env s { userId := some u, message := some m } =
      match env.findOneErr with
      | some e => { response := { status := 500, body := .error e }, store := s, genCalls := [] }
      | none =>
        match env.generate { history := (turnsOf s u).map toGemini, input := m } with
        | .ok t =>
          match env.save73Err with
          | none =>
            { response := { status := 200, body := .reply t },
              store := save s ((findOne s u).map Prod.fst)
                { userId := u,
                  messages := turnsOf s u ++ [{ role := "user", content := m }]
                    ++ [{ role := "assistant", content := t }] },
              genCalls := [{ history := (turnsOf s u).map toGemini, input := m }] }
          | some _ =>
            chatCatch env s ((findOne s u).map Prod.fst) u m
              (turnsOf s u ++ [{ role := "user", content := m }]
                ++ [{ role := "assistant", content := t }])
              [{ history := (turnsOf s u).map toGemini, input := m }]
        | .error _ =>
          chatCatch env s ((findOne s u).map Prod.fst) u m
            (turnsOf s u ++ [{ role := "user", content := m }])
            [{ history := (turnsOf s u).map toGemini, input := m }] := by
  have hdrop : ∀ l : List Turn,
      (List.map toGemini (l ++ [{ role := "user", content := m }])).dropLast
        = l.map toGemini := by
    intro l
    rw [List.map_append, List.map_singleton, List.dropLast_concat]
  have hmatch : (match findOne s u with
      | some p => p.2.messages
      | none => []) = turnsOf s u := rfl
  have hcond : (u == "" || m == "") = false := by simp [hu, hm]
  simp only [chat, falsy, hcond, Bool.false_eq_true, if_false, Option.getD_some, hmatch, hdrop]

/-- With every store operation succeeding, a valid request appends the user
turn and one assistant turn to the stored turns of its user, and answers 200
with the content of that assistant turn. -/
theorem chat_appends_two (env : ChatEnv) (s : Store) (u m : String)
    (hu : u ≠ "") (hm : m ≠ "") (hstore : env.storeOk) :
    ∃ r : String,
      (r = match env.generate { history := (turnsOf s u).map toGemini, input := m } with
          | .ok t => t
          | .error _ => mockResponse m) ∧
      (chat env s { userId := some u, message := some m }).response
        = { status := 200, body := .reply r } ∧
      conversation (chat env s { userId := some u, message := some m }).store u
        = some { userId := u,
                 messages := turnsOf s u ++ [{ role := "user", content := m },
                                             { role := "assistant", content := r }] } := by
  obtain ⟨h1, h2, h3⟩ := hstore
  rw [chat_valid env s u m hu hm]
  simp only [h1, h2]
  cases hg : env.generate { history := (turnsOf s u).map toGemini, input := m } with
  | ok t =>
    refine ⟨t, rfl, rfl, ?_⟩
    simp only [conversation_save_same, List.append_assoc, List.singleton_append]
  | error e =>
    refine ⟨mockResponse m, rfl, ?_, ?_⟩
    · simp only [chatCatch, h3]
    · simp only [chatCatch, h3, conversation_save_same, List.append_assoc, List.singleton_append]

theorem Alternates.length_eq {ms : List String} {ts : List Turn} (h : Alternates ms ts) :
    ts.length = 2 * ms.length := by
  induction ms generalizing ts with
  | nil =>
    simp only [Alternates] at h
    simp [h]
  | cons m ms ih =>
    obtain ⟨r, rest, rfl, hrest⟩ := h
    simp only [List.length_cons, ih hrest]
    omega

theorem Alternates.user_at {ms : List String} {ts : List Turn} (h : Alternates ms ts)
    (k : Nat) (hk : k < ms.length) :
    ts[2 * k]? = some { role := "user", content := ms[k] } := by
  induction ms generalizing ts k with
  | nil => simp at hk
  | cons m ms ih =>
    obtain ⟨r, rest, rfl, hrest⟩ := h
    cases k with
    | zero => simp
    | succ k =>
      have hk2 : k < ms.length := by simpa using hk
      have h2 : 2 * (k + 1) = 2 * k + 1 + 1 := by omega
      rw [h2, List.getElem?_cons_succ, List.getElem?_cons_succ, ih hrest k hk2]
      simp

theorem Alternates.assistant_at {ms : List String} {ts : List Turn} (h : Alternates ms ts)
    (k : Nat) (hk : k < ms.length) :
    (ts[2 * k + 1]?).map Turn.role = some "assistant" := by
  induction ms generalizing ts k with
  | nil => simp at hk
  | cons m ms ih =>
    obtain ⟨r, rest, rfl, hrest⟩ := h
    cases k with
    | zero => simp
    | succ k =>
      have hk2 : k < ms.length := by simpa using hk
      have h2 : 2 * (k + 1) + 1 = (2 * k + 1) + 1 + 1 := by omega
      rw [h2, List.getElem?_cons_succ, List.getElem?_cons_succ, ih hrest k hk2]

/-- Sequential valid requests of one user, store operations succeeding, extend
the stored turns of that user by alternating user and assistant turns. -/
theorem runChats_turns (s : Store) (u : String) (reqs : List (ChatEnv × String))
    (hu : u ≠ "") (hreqs : ∀ p ∈ reqs, p.2 ≠ "" ∧ p.1.storeOk) :
    ∃ ts, Alternates (reqs.map Prod.snd) ts
      ∧ turnsOf (runChats s u reqs) u = turnsOf s u ++ ts := by
  induction reqs generalizing s with
  | nil => exact ⟨[], rfl, by simp [runChats]⟩
  | cons p rest ih =>
    obtain ⟨hm, hstore⟩ := hreqs p (List.mem_cons_self _ _)
    obtain ⟨r, -, -, hconv⟩ := chat_appends_two p.1 s u p.2 hu hm hstore
    obtain ⟨ts, hts, hrun⟩ :=
      ih (chat p.1 s { userId := some u, message := some p.2 }).store
        (fun q hq => hreqs q (List.mem_cons_of_mem _ hq))
    refine ⟨{ role := "user", content := p.2 } :: { role := "assistant", content := r } :: ts,
      ⟨r, ts, rfl, hts⟩, ?_⟩
    rw [runChats, hrun, turnsOf_eq _ u, hconv]
    simp

/-- What a `/chat` request of user `u` can do to the store: nothing, or a save
of the document of `u` with turns appended to those it had. -/
theorem chat_store_cases (env : ChatEnv) (s : Store) (u : String) (m : Option String) :
    (chat env s { userId := some u, message := m }).store = s
    ∨ ∃ extra, (chat env s { userId := some u, message := m }).store
        = save s ((findOne s u).map Prod.fst)
            { userId := u, messages := turnsOf s u ++ extra } := by
  by_cases hc : (falsy (some u) || falsy m) = true
  · left
    simp only [chat, hc, if_true]
  · have hc2 : falsy (some u) = false ∧ falsy m = false := by
      simpa [Bool.or_eq_true, not_or] using hc
    obtain ⟨hu, hm⟩ := hc2
    cases m with
    | none => simp [falsy] at hm
    | some m =>
      have hu2 : u ≠ "" := by simpa [falsy] using hu
      have hm2 : m ≠ "" := by simpa [falsy] using hm
      rw [chat_valid env s u m hu2 hm2]
      cases env.findOneErr with
      | some e => exact Or.inl rfl
      | none =>
        simp only
        cases env.generate { history := (turnsOf s u).map toGemini, input := m } with
        | error e =>
          cases h88 : env.save88Err with
          | some e => left; simp [chatCatch, h88]
          | none =>
            right
            exact ⟨[{ role := "user", content := m },
              { role := "assistant", content := mockResponse m }], by simp [chatCatch, h88]⟩
        | ok r =>
          cases h73 : env.save73Err with
          | none =>
            right
            exact ⟨[{ role := "user", content := m }, { role := "assistant", content := r }],
              by simp⟩
          | some e =>
            cases h88 : env.save88Err with
            | some e => left; simp [chatCatch, h88]
            | none =>
              right
              exact ⟨[{ role := "user", content := m }, { role := "assistant", content := r },
                { role := "assistant", content := mockResponse m }], by simp [chatCatch, h88]⟩

/-- When the `save` of line 73 does not throw, a valid request either adds
exactly the user turn and one assistant turn and answers 200 with that
assistant turn, or answers 500 and leaves the store as it was. -/
theorem chat_two_or_nothing_of_save73 (env : ChatEnv) (s : Store) (u m : String)
    (hu : u ≠ "") (hm : m ≠ "") (h73 : env.save73Err = none) :
    (∃ r, (chat env s { userId := some u, message := some m }).response
            = { status := 200, body := .reply r }
          ∧ conversation (chat env s { userId := some u, message := some m }).store u
            = some { userId := u,
                     messages := turnsOf s u ++ [{ role := "user", content := m },
                                                 { role := "assistant", content := r }] })
    ∨ (∃ e, (chat env s { userId := some u, message := some m }).response
            = { status := 500, body := .error e }
          ∧ (chat env s { userId := some u, message := some m }).store = s) := by
  rw [chat_valid env s u m hu hm]
  cases env.findOneErr with
  | some e => exact Or.inr ⟨e, rfl, rfl⟩
  | none =>
    simp only [h73]
    cases env.generate { history := (turnsOf s u).map toGemini, input := m } with
    | ok r =>
      left
      exact ⟨r, rfl, by simp [conversation_save_same]⟩
    | error e =>
      cases h88 : env.save88Err with
      | some e => right; exact ⟨e, by simp [chatCatch, h88], by simp [chatCatch, h88]⟩
      | none =>
        left
        exact ⟨mockResponse m, by simp [chatCatch, h88],
          by simp [chatCatch, h88, conversation_save_same]⟩

/-- When generation succeeds with `r` and the `save` of line 73 does not throw,
the response is 200 with `reply: r` and the assistant turn stored is `r`. -/
theorem chat_reply_of_save73 (env : ChatEnv) (s : Store) (u m r : String)
    (hu : u ≠ "") (hm : m ≠ "") (hload : env.findOneErr = none)
    (hgen : env.generate { history := (turnsOf s u).map toGemini, input := m } = .ok r)
    (h73 : env.save73Err = none) :
    (chat env s { userId := some u, message := some m }).response
      = { status := 200, body := .reply r }
    ∧ turnsOf (chat env s { userId := some u, message := some m }).store u
      = turnsOf s u ++ [{ role := "user", content := m }, { role := "assistant", content := r }] := by
  rw [chat_valid env s u m hu hm]
  simp only [hload, hgen, h73, turnsOf_save_same, List.append_assoc, List.singleton_append,
    and_self]

theorem docCount_set {s : Store} {u : String} {p : Nat × ChatDoc}
    (h : findOne s u = some p) (m : List Turn) (v : String) :
    docCount (s.set p.1 { userId := u, messages := m }) v = docCount s v := by
  induction s generalizing p with
  | nil => simp [findOne] at h
  | cons d ds ih =>
    by_cases hd : d.userId = u
    · simp [findOne, hd] at h
      subst h
      simp only [docCount, List.set_cons_zero, List.filter_cons, hd]
      split <;> simp
    · simp only [findOne, hd, if_false, Option.map_eq_some'] at h
      obtain ⟨q, hq, rfl⟩ := h
      have := ih (p := q) hq
      simp only [docCount] at this
      simp only [docCount, List.set_cons_succ, List.filter_cons]
      split <;> simp [this]

theorem docCount_append (s : Store) (d : ChatDoc) (v : String) :
    docCount (s ++ [d]) v = docCount s v + (if d.userId = v then 1 else 0) := by
  simp only [docCount, List.filter_append, List.length_append, List.filter_cons, List.filter_nil]
  split <;> simp_all

/-- A `/chat` request never makes a second document for a user: a user with at
most one document before has at most one after. -/
theorem chat_docCount_le_one (env : ChatEnv) (s : Store) (u : String) (m : Option String)
    (v : String) (h : docCount s v ≤ 1) :
    docCount (chat env s { userId := some u, message := m }).store v ≤ 1 := by
  rcases chat_store_cases env s u m with hs | ⟨extra, hs⟩
  · rw [hs]; exact h
  · rw [hs]
    cases hf : findOne s u with
    | some p =>
      simp only [save, Option.map_some']
      rw [docCount_set hf]
      exact h
    | none =>
      simp only [save, Option.map_none']
      rw [docCount_append]
      by_cases huv : u = v
      · subst huv
        rw [(findOne_eq_none_iff s u).1 hf]
        simp
      · simp [huv, h]

theorem docCount_deleteOne_le (s : Store) (u v : String) :
    docCount (deleteOne s u) v ≤ docCount s v := by
  induction s with
  | nil => simp [deleteOne]
  | cons d ds ih =>
    simp only [docCount] at ih
    by_cases hd : d.userId = u
    · simp only [deleteOne, hd, if_true, docCount, List.filter_cons]
      split <;> simp
    · simp only [deleteOne, hd, if_false, docCount, List.filter_cons]
      split <;> simp [ih]

/-- A `/logout` request does not add documents either. -/
theorem logout_docCount_le_one (env : LogoutEnv) (s : Store) (req : LogoutReq)
    (v : String) (h : docCount s v ≤ 1) :
    docCount (logout env s req).store v ≤ 1 := by
  unfold logout
  split
  · exact h
  · split
    · exact h
    · exact le_trans (docCount_deleteOne_le _ _ _) h

/-! ## The claims -/

/-- C4: a `/chat` request whose `userId` is absent or empty, or whose `message`
is absent or empty, is answered 400 with `error: "Missing userId or message"`,
leaves the store exactly as it was and makes no call to the generation client,
whatever the store and the environment. -/
theorem chat_missing_field_rejected (env : ChatEnv) (s : Store) (req : ChatReq)
    (h : (req.userId = none ∨ req.userId = some "")
          ∨ (req.message = none ∨ req.message = some "")) :
    chat env s req =
      { response := { status := 400, body := .error "Missing userId or message" },
        store := s, genCalls := [] } := by
  have hc : (falsy req.userId || falsy req.message) = true := by
    rw [Bool.or_eq_true, falsy_eq_true_iff, falsy_eq_true_iff]
    exact h
  simp only [chat, hc, if_true]

theorem chat_missing_field_rejected_witness :
    ((({ userId := some "", message := some "hello" } : ChatReq).userId = none
        ∨ ({ userId := some "", message := some "hello" } : ChatReq).userId = some "")
      ∨ (({ userId := some "", message := some "hello" } : ChatReq).message = none
        ∨ ({ userId := some "", message := some "hello" } : ChatReq).message = some ""))
    ∧ chat (envOk "Hi!") [{ userId := "u1", messages := [] }]
        { userId := some "", message := some "hello" } =
      { response := { status := 400, body := .error "Missing userId or message" },
        store := [{ userId := "u1", messages := [] }], genCalls := [] } :=
  ⟨Or.inl (Or.inr rfl),
   chat_missing_field_rejected (envOk "Hi!") [{ userId := "u1", messages := [] }]
     { userId := some "", message := some "hello" } (Or.inl (Or.inr rfl))⟩

/-- C9: a `/logout` request whose `userId` is absent or empty is answered 400
with `error: "User ID required"` and leaves the store exactly as it was. -/
theorem logout_missing_user_rejected (env : LogoutEnv) (s : Store) (req : LogoutReq)
    (h : req.userId = none ∨ req.userId = some "") :
    logout env s req =
      { response := { status := 400, body := .error "User ID required" }, store := s } := by
  have hc : falsy req.userId = true := (falsy_eq_true_iff _).2 h
  simp only [logout, hc, if_true]

theorem logout_missing_user_rejected_witness :
    (({ userId := none } : LogoutReq).userId = none
        ∨ ({ userId := none } : LogoutReq).userId = some "")
    ∧ logout { deleteOneErr := none } [{ userId := "u1", messages := [] }] { userId := none } =
      { response := { status := 400, body := .error "User ID required" },
        store := [{ userId := "u1", messages := [] }] } :=
  ⟨Or.inl rfl,
   logout_missing_user_rejected { deleteOneErr := none } [{ userId := "u1", messages := [] }]
     { userId := none } (Or.inl rfl)⟩

/-- C2: when the generation call of a valid `/chat` request fails and the store
operations succeed, the response is 200 with `reply` equal to the fixed
template around the message, and the last turn stored for the user is the
assistant turn with that same content; for the message `hello` the reply is
the sentence of the example. -/
theorem chat_fallback_reply (env : ChatEnv) (s : Store) (u m : String)
    (hu : u ≠ "") (hm : m ≠ "") (hstore : env.storeOk)
    (hgen : ∀ c ∈ (chat env s { userId := some u, message := some m }).genCalls,
      ∃ e, env.generate c = .error e) :
    (chat env s { userId := some u, message := some m }).response
      = { status := 200,
          body := .reply ("I'm sorry, I'm currently experiencing connection issues. Your message was: \""
            ++ m ++ "\". Please try again later.") }
    ∧ (turnsOf (chat env s { userId := some u, message := some m }).store u).getLast?
      = some { role := "assistant",
               content := "I'm sorry, I'm currently experiencing connection issues. Your message was: \""
                 ++ m ++ "\". Please try again later." }
    ∧ (m = "hello" →
        (chat env s { userId := some u, message := some m }).response
          = { status := 200,
              body := .reply "I'm sorry, I'm currently experiencing connection issues. Your message was: \"hello\". Please try again later." }) := by
  have hfail : ∃ e, env.generate { history := (turnsOf s u).map toGemini, input := m }
      = .error e := by
    apply hgen
    rw [chat_valid env s u m hu hm]
    simp only [hstore.1, hstore.2.1]
    cases env.generate { history := (turnsOf s u).map toGemini, input := m } <;>
      simp [chatCatch, hstore.2.2]
  obtain ⟨e, he⟩ := hfail
  obtain ⟨r, hr, hresp, hconv⟩ := chat_appends_two env s u m hu hm hstore
  rw [he] at hr
  subst hr
  have h1 : (chat env s { userId := some u, message := some m }).response
      = { status := 200,
          body := .reply ("I'm sorry, I'm currently experiencing connection issues. Your message was: \""
            ++ m ++ "\". Please try again later.") } := hresp
  refine ⟨h1, ?_, ?_⟩
  · rw [turnsOf_eq, hconv]
    simp [mockResponse]
  · intro hhello
    rw [h1, hhello]
    rfl

theorem chat_fallback_reply_witness :
    "u1" ≠ "" ∧ "hello" ≠ "" ∧ envGenFails.storeOk
    ∧ (chat envGenFails [] { userId := some "u1", message := some "hello" }).response
      = { status := 200,
          body := .reply ("I'm sorry, I'm currently experiencing connection issues. Your message was: \""
            ++ "hello" ++ "\". Please try again later.") } :=
  ⟨by decide, by decide, ⟨rfl, rfl, rfl⟩,
   (chat_fallback_reply envGenFails [] "u1" "hello" (by decide) (by decide) ⟨rfl, rfl, rfl⟩
      (fun _ _ => ⟨"fetch failed", rfl⟩)).1⟩

/-- C3: for a valid `/chat` request, with `all` the stored turns of the user
followed by the new user turn (`n` turns), every call the handler makes to the
generation client has as prior context the first `n - 1` turns of `all` mapped
in order and as new input the message, and it makes exactly one such call once
the load has succeeded.  The context has length `n - 1`, is the image of the
stored turns alone (the new turn, last of `all`, is not part of it), each
mapped turn is `{ role, parts: [{ text: content }] }` with `assistant` sent to
`model` and `user` to `user`, and every role in the context is `model` or
`user`. -/
theorem chat_context_split (env : ChatEnv) (s : Store) (u m : String)
    (hu : u ≠ "") (hm : m ≠ "") :
    (∀ c ∈ (chat env s { userId := some u, message := some m }).genCalls,
      c = { history :=
              ((turnsOf s u ++ [Turn.mk "user" m]).take
                ((turnsOf s u ++ [Turn.mk "user" m]).length - 1)).map toGemini,
            input := m })
    ∧ (env.findOneErr = none →
        (chat env s { userId := some u, message := some m }).genCalls
          = [{ history :=
                ((turnsOf s u ++ [Turn.mk "user" m]).take
                  ((turnsOf s u ++ [Turn.mk "user" m]).length - 1)).map toGemini,
               input := m }])
    ∧ (((turnsOf s u ++ [Turn.mk "user" m]).take
          ((turnsOf s u ++ [Turn.mk "user" m]).length - 1)).map toGemini).length
        = (turnsOf s u ++ [Turn.mk "user" m]).length - 1
    ∧ ((turnsOf s u ++ [Turn.mk "user" m]).take
          ((turnsOf s u ++ [Turn.mk "user" m]).length - 1)).map toGemini
        = (turnsOf s u).map toGemini
    ∧ (∀ t : Turn, (toGemini t).parts = [{ text := t.content }]
        ∧ (t.role = "assistant" → (toGemini t).role = "model")
        ∧ (t.role = "user" → (toGemini t).role = "user"))
    ∧ (∀ g ∈ ((turnsOf s u ++ [Turn.mk "user" m]).take
          ((turnsOf s u ++ [Turn.mk "user" m]).length - 1)).map toGemini,
        g.role = "model" ∨ g.role = "user") := by
  have htake : (turnsOf s u ++ [Turn.mk "user" m]).take
      ((turnsOf s u ++ [Turn.mk "user" m]).length - 1) = turnsOf s u := by
    simp
  rw [htake]
  have hcalls : (chat env s { userId := some u, message := some m }).genCalls
      = match env.findOneErr with
        | some _ => []
        | none => [{ history := (turnsOf s u).map toGemini, input := m }] := by
    rw [chat_valid env s u m hu hm]
    cases env.findOneErr with
    | some e => rfl
    | none =>
      simp only
      cases env.generate { history := (turnsOf s u).map toGemini, input := m } with
      | error e => cases h88 : env.save88Err <;> simp [chatCatch, h88]
      | ok r =>
        cases h73 : env.save73Err with
        | none => rfl
        | some e => cases h88 : env.save88Err <;> simp [chatCatch, h88]
  refine ⟨?_, ?_, ?_, rfl, ?_, ?_⟩
  · intro c hc
    rw [hcalls] at hc
    cases hf : env.findOneErr with
    | some e => simp [hf] at hc
    | none => simpa [hf] using hc
  · intro hf
    rw [hcalls, hf]
  · simp
  · intro t
    refine ⟨rfl, ?_, ?_⟩
    · intro ht
      simp [toGemini, ht]
    · intro ht
      simp [toGemini, ht]
  · intro g hg
    obtain ⟨t, _, rfl⟩ := List.mem_map.1 hg
    by_cases ht : t.role = "assistant"
    · left
      simp [toGemini, ht]
    · right
      simp [toGemini, ht]

theorem chat_context_split_witness :
    "u1" ≠ "" ∧ "again" ≠ ""
    ∧ (chat (envOk "Hi!")
        [{ userId := "u1", messages := [{ role := "user", content := "hello" },
                                        { role := "assistant", content := "Hi!" }] }]
        { userId := some "u1", message := some "again" }).genCalls
      = [{ history := [{ role := "user", parts := [{ text := "hello" }] },
                       { role := "model", parts := [{ text := "Hi!" }] }],
           input := "again" }] :=
  ⟨by decide, by decide,
   (chat_context_split (envOk "Hi!")
      [{ userId := "u1", messages := [{ role := "user", content := "hello" },
                                      { role := "assistant", content := "Hi!" }] }]
      "u1" "again" (by decide) (by decide)).2.1 rfl⟩

/-- C5, as stated, fails for the empty `userId`: with no conversation stored
for it, a non-empty message and every store operation succeeding, the request
is answered 400 and no conversation is stored. -/
theorem chat_first_request_empty_user :
    conversation [] "" = none ∧ "hello" ≠ "" ∧ (envOk "Hi!").storeOk
    ∧ (chat (envOk "Hi!") [] { userId := some "", message := some "hello" }).response
        = { status := 400, body := .error "Missing userId or message" }
    ∧ conversation
        (chat (envOk "Hi!") [] { userId := some "", message := some "hello" }).store "" = none
    ∧ ¬ ∃ r : String,
        (chat (envOk "Hi!") [] { userId := some "", message := some "hello" }).response
          = { status := 200, body := .reply r }
        ∧ turnsOf (chat (envOk "Hi!") [] { userId := some "", message := some "hello" }).store ""
          = [{ role := "user", content := "hello" }, { role := "assistant", content := r }] := by
  refine ⟨rfl, by decide, ⟨rfl, rfl, rfl⟩, by decide, by decide, ?_⟩
  rintro ⟨r, hr, -⟩
  have h400 : (chat (envOk "Hi!") [] { userId := some "", message := some "hello" }).response.status
      = 400 := by decide
  rw [hr] at h400
  simp at h400

/-- C5 (amended): for a non-empty `userId` with no stored conversation and a
non-empty message, a `/chat` request whose store operations succeed is answered
200 with a reply `r` (the generated text when generation succeeds on the call
made, the fallback text when it fails) and leaves for the user a conversation
of exactly two turns, the user turn with the message and then the assistant
turn with `r`. -/
theorem chat_first_request (env : ChatEnv) (s : Store) (u m : String)
    (hu : u ≠ "") (hm : m ≠ "") (hnew : conversation s u = none) (hstore : env.storeOk) :
    (chat env s { userId := some u, message := some m }).response
      = { status := 200,
          body := .reply (match env.generate { history := [], input := m } with
            | .ok t => t
            | .error _ => mockResponse m) }
    ∧ conversation (chat env s { userId := some u, message := some m }).store u
      = some { userId := u,
               messages :=
                 [{ role := "user", content := m },
                  { role := "assistant",
                    content := (match env.generate { history := [], input := m } with
                      | .ok t => t
                      | .error _ => mockResponse m) }] }
    ∧ (chat env s { userId := some u, message := some m }).genCalls
      = [{ history := [], input := m }] := by
  have hturns : turnsOf s u = [] := by rw [turnsOf_eq, hnew]; rfl
  obtain ⟨r, hr, hresp, hconv⟩ := chat_appends_two env s u m hu hm hstore
  rw [hturns] at hr hconv
  simp only [List.map_nil] at hr
  subst hr
  refine ⟨hresp, by simpa using hconv, ?_⟩
  rw [chat_valid env s u m hu hm, hturns]
  obtain ⟨h1, h2, h3⟩ := hstore
  simp only [h1, h2, List.map_nil]
  cases env.generate { history := [], input := m } <;> simp [chatCatch, h3]

theorem chat_first_request_witness :
    "u1" ≠ "" ∧ "hello" ≠ "" ∧ conversation [] "u1" = none ∧ (envOk "Hi!").storeOk
    ∧ conversation (chat (envOk "Hi!") [] { userId := some "u1", message := some "hello" }).store
        "u1"
      = some { userId := "u1",
               messages := [{ role := "user", content := "hello" },
                            { role := "assistant", content := "Hi!" }] } :=
  ⟨by decide, by decide, rfl, ⟨rfl, rfl, rfl⟩,
   (chat_first_request (envOk "Hi!") [] "u1" "hello" (by decide) (by decide) rfl
      ⟨rfl, rfl, rfl⟩).2.1⟩

/-- C1: starting from a store with no conversation for a non-empty `userId`,
after `N` sequential `/chat` requests of that user with non-empty messages,
every store operation succeeding and generation succeeding or failing freely
on each request, the stored turn sequence of the user has exactly `2 * N`
entries, the entry at index `2 * k` is the user turn carrying the message of
request `k + 1`, and the entry at each odd index has role `assistant`. -/
theorem chat_round_trip (s : Store) (u : String) (reqs : List (ChatEnv × String))
    (hu : u ≠ "") (hnew : conversation s u = none)
    (hreqs : ∀ p ∈ reqs, p.2 ≠ "" ∧ p.1.storeOk) :
    (turnsOf (runChats s u reqs) u).length = 2 * reqs.length
    ∧ (∀ k (hk : k < reqs.length),
        (turnsOf (runChats s u reqs) u)[2 * k]?
          = some { role := "user", content := (reqs[k]).2 })
    ∧ (∀ k, k < reqs.length →
        ((turnsOf (runChats s u reqs) u)[2 * k + 1]?).map Turn.role = some "assistant") := by
  have hturns : turnsOf s u = [] := by rw [turnsOf_eq, hnew]; rfl
  obtain ⟨ts, hts, hrun⟩ := runChats_turns s u reqs hu hreqs
  rw [hturns, List.nil_append] at hrun
  rw [hrun]
  refine ⟨?_, ?_, ?_⟩
  · simpa using hts.length_eq
  · intro k hk
    have := hts.user_at k (by simpa using hk)
    simpa using this
  · intro k hk
    exact hts.assistant_at k (by simpa using hk)

theorem chat_round_trip_witness :
    "u1" ≠ "" ∧ conversation [{ userId := "u2", messages := [] }] "u1" = none
    ∧ (turnsOf (runChats [{ userId := "u2", messages := [] }] "u1"
          [(envOk "Hi!", "hello"), (envGenFails, "again")]) "u1").length
        = 2 * [(envOk "Hi!", "hello"), (envGenFails, "again")].length :=
  ⟨by decide, rfl,
   (chat_round_trip [{ userId := "u2", messages := [] }] "u1"
      [(envOk "Hi!", "hello"), (envGenFails, "again")] (by decide) rfl
      (by
        intro p hp
        simp only [List.mem_cons, List.mem_singleton, List.not_mem_nil, or_false] at hp
        rcases hp with rfl | rfl
        · exact ⟨by decide, rfl, rfl, rfl⟩
        · exact ⟨by decide, rfl, rfl, rfl⟩)).1⟩

/-- C6, at a failing input: the user already has two stored turns, generation
succeeds with `Hi again!`, the `save` of line 73 throws and the `save` of the
catch block succeeds.  The request is answered 200 and three turns are added
to the stored conversation: the user turn, the generated assistant turn and
the fallback assistant turn. -/
theorem chat_save_retry_adds_three :
    (chat (envSaveRetry "Hi again!")
        [{ userId := "u1", messages := [{ role := "user", content := "hello" },
                                        { role := "assistant", content := "Hi!" }] }]
        { userId := some "u1", message := some "again" }).store
      = [{ userId := "u1",
           messages := [{ role := "user", content := "hello" },
                        { role := "assistant", content := "Hi!" },
                        { role := "user", content := "again" },
                        { role := "assistant", content := "Hi again!" },
                        { role := "assistant",
                          content := "I'm sorry, I'm currently experiencing connection issues. Your message was: \"again\". Please try again later." }] }]
    ∧ (chat (envSaveRetry "Hi again!")
        [{ userId := "u1", messages := [{ role := "user", content := "hello" },
                                        { role := "assistant", content := "Hi!" }] }]
        { userId := some "u1", message := some "again" }).response.status = 200 := by
  decide

/-- C7, at a failing input: no conversation is stored, generation succeeds with
`Hi!`, the `save` of line 73 throws and the `save` of the catch block
succeeds.  The response is 200 with the fallback reply, not `Hi!` and not 500,
and the fallback assistant turn is stored last. -/
theorem chat_save_failure_answers_fallback :
    (chat (envSaveRetry "Hi!") [] { userId := some "u1", message := some "hello" }).response
      = { status := 200,
          body := .reply "I'm sorry, I'm currently experiencing connection issues. Your message was: \"hello\". Please try again later." }
    ∧ (chat (envSaveRetry "Hi!") [] { userId := some "u1", message := some "hello" }).genCalls
      = [{ history := [], input := "hello" }]
    ∧ (envSaveRetry "Hi!").generate { history := [], input := "hello" } = .ok "Hi!"
    ∧ (turnsOf (chat (envSaveRetry "Hi!") []
          { userId := some "u1", message := some "hello" }).store "u1").getLast?
      = some { role := "assistant",
               content := "I'm sorry, I'm currently experiencing connection issues. Your message was: \"hello\". Please try again later." } :=
  ⟨by decide, by decide, rfl, by decide⟩

/-- C8, as stated, fails on a store holding two documents for the user: the
first `/logout` is answered 200 but a conversation of the user is still
stored, and the second `/logout` changes the store again. -/
theorem logout_twice_duplicate_documents :
    "u1" ≠ ""
    ∧ (logout { deleteOneErr := none }
        [{ userId := "u1", messages := [{ role := "user", content := "hello" }] },
         { userId := "u1", messages := [] }]
        { userId := some "u1" }).response
      = { status := 200, body := .message "Chat history deleted, user logged out." }
    ∧ conversation
        (logout { deleteOneErr := none }
          [{ userId := "u1", messages := [{ role := "user", content := "hello" }] },
           { userId := "u1", messages := [] }]
          { userId := some "u1" }).store "u1"
      ≠ none
    ∧ (logout { deleteOneErr := none }
        (logout { deleteOneErr := none }
          [{ userId := "u1", messages := [{ role := "user", content := "hello" }] },
           { userId := "u1", messages := [] }]
          { userId := some "u1" }).store
        { userId := some "u1" }).store
      ≠ (logout { deleteOneErr := none }
          [{ userId := "u1", messages := [{ role := "user", content := "hello" }] },
           { userId := "u1", messages := [] }]
          { userId := some "u1" }).store := by
  decide

/-- C8 (amended): for every store and every non-empty `userId`, with
`deleteOne` succeeding, two `/logout` requests in a row are both answered 200
with `message: "Chat history deleted, user logged out."`, also when the user
has no conversation or several documents; and when the store holds at most one
document for the user, after the first request the store holds no conversation
for the user and the second request leaves the store as the first left it. -/
theorem logout_twice (env1 env2 : LogoutEnv) (s : Store) (u : String)
    (hu : u ≠ "") (h1 : env1.deleteOneErr = none) (h2 : env2.deleteOneErr = none) :
    (logout env1 s { userId := some u }).response
      = { status := 200, body := .message "Chat history deleted, user logged out." }
    ∧ (logout env2 (logout env1 s { userId := some u }).store { userId := some u }).response
      = { status := 200, body := .message "Chat history deleted, user logged out." }
    ∧ (docCount s u ≤ 1 →
        conversation (logout env1 s { userId := some u }).store u = none
        ∧ (logout env2 (logout env1 s { userId := some u }).store { userId := some u }).store
          = (logout env1 s { userId := some u }).store) := by
  have hf : falsy (some u) = false := by simp [falsy, hu]
  have hl : ∀ (env : LogoutEnv) (s0 : Store), env.deleteOneErr = none →
      logout env s0 { userId := some u }
        = { response := { status := 200,
                          body := .message "Chat history deleted, user logged out." },
            store := deleteOne s0 u } := by
    intro env s0 he
    simp only [logout, hf, he, Bool.false_eq_true, if_false, Option.getD_some]
  rw [hl env1 s h1, hl env2 _ h2]
  refine ⟨rfl, rfl, ?_⟩
  intro hone
  have hnone : findOne (deleteOne s u) u = none := by
    rw [findOne_eq_none_iff, docCount_deleteOne]
    omega
  refine ⟨?_, ?_⟩
  · simp only [conversation, hnone, Option.map_none']
  · exact deleteOne_of_none hnone

theorem logout_twice_witness :
    "u1" ≠ ""
    ∧ docCount [{ userId := "u1", messages := [{ role := "user", content := "hello" }] },
                { userId := "u2", messages := [] }] "u1" ≤ 1
    ∧ (logout { deleteOneErr := none }
        [{ userId := "u1", messages := [{ role := "user", content := "hello" }] },
         { userId := "u2", messages := [] }]
        { userId := some "u1" }).response
      = { status := 200, body := .message "Chat history deleted, user logged out." }
    ∧ conversation
        (logout { deleteOneErr := none }
          [{ userId := "u1", messages := [{ role := "user", content := "hello" }] },
           { userId := "u2", messages := [] }]
          { userId := some "u1" }).store "u1" = none :=
  ⟨by decide, by decide,
   (logout_twice { deleteOneErr := none } { deleteOneErr := none }
      [{ userId := "u1", messages := [{ role := "user", content := "hello" }] },
       { userId := "u2", messages := [] }] "u1" (by decide) rfl rfl).1,
   ((logout_twice { deleteOneErr := none } { deleteOneErr := none }
      [{ userId := "u1", messages := [{ role := "user", content := "hello" }] },
       { userId := "u2", messages := [] }] "u1" (by decide) rfl rfl).2.2 (by decide)).1⟩

/-- C10: for every store, every environment and every `/chat` request of user
`u` (message present or not, any generation and store outcome), the turns
stored for `u` before the request are an initial segment of those stored after
it, and the conversation of every other user is unchanged; every `/logout`
request of `u` leaves the conversation of every other user unchanged and
removes at most one document, one of `u`. -/
theorem chat_logout_frame (envc : ChatEnv) (envl : LogoutEnv) (s : Store) (u : String)
    (m : Option String) :
    (turnsOf s u <+: turnsOf (chat envc s { userId := some u, message := m }).store u)
    ∧ (∀ v, v ≠ u →
        conversation (chat envc s { userId := some u, message := m }).store v
          = conversation s v)
    ∧ (∀ v, v ≠ u →
        conversation (logout envl s { userId := some u }).store v = conversation s v)
    ∧ ((logout envl s { userId := some u }).store = s
        ∨ (logout envl s { userId := some u }).store = deleteOne s u) := by
  refine ⟨?_, ?_, ?_, ?_⟩
  · rcases chat_store_cases envc s u m with hs | ⟨extra, hs⟩
    · exact ⟨[], by rw [hs, List.append_nil]⟩
    · rw [hs, turnsOf_save_same]
      exact ⟨extra, rfl⟩
  · intro v hv
    rcases chat_store_cases envc s u m with hs | ⟨extra, hs⟩
    · rw [hs]
    · rw [hs, conversation, findOne_save_other s u v _ hv, conversation]
  · intro v hv
    unfold logout
    split
    · rfl
    · split
      · rfl
      · exact findOne_deleteOne_other s u v hv
  · unfold logout
    split
    · exact Or.inl rfl
    · split
      · exact Or.inl rfl
      · exact Or.inr rfl

theorem chat_logout_frame_witness :
    "u2" ≠ "u1"
    ∧ conversation
        (chat envGenFails
          [{ userId := "u2", messages := [{ role := "user", content := "hello" }] }]
          { userId := some "u1", message := some "again" }).store "u2"
      = conversation
          [{ userId := "u2", messages := [{ role := "user", content := "hello" }] }] "u2" :=
  ⟨by decide,
   (chat_logout_frame envGenFails { deleteOneErr := none }
      [{ userId := "u2", messages := [{ role := "user", content := "hello" }] }]
      "u1" (some "again")).2.1 "u2" (by decide)⟩

end ChatBackend
